import Mathlib

/-!
# Verification of the AI-Deprescribing-Agent against its specification

Shallow embedding of the deprescribing decision-support system.  The React
client (`PatientForm.jsx`, `TaperModal.jsx`, `ResultsDashboard.jsx`,
`services/api.js`) is embedded directly from the source.  The backend engine
(risk scorer, criteria matcher, interaction checker, taper generator) is not
part of the shipped sources, so those components are modelled from the
specification, as marked on each definition.
-/

namespace Deprescribing

/-- Lowercasing of a string, character by character: the embedding of
JavaScript's `toLowerCase()` (and of the backend's name normalization). -/
def lowerString (s : String) : String :=
  ⟨s.data.map Char.toLower⟩

/-! ## Frontend data model (from `PatientForm.jsx` state shapes) -/

/-- A medication entry as held in `PatientForm.jsx` form state
(`currentMedication` initial shape, lines 32-39). -/
structure MedEntry where
  generic_name : String
  brand_name : String
  dose : String
  frequency : String
  indication : String
  duration : String
deriving DecidableEq, Repr

/-- A herbal-product entry as held in `PatientForm.jsx` form state
(`currentHerb` initial shape, lines 41-48). -/
structure HerbEntry where
  generic_name : String
  brand_name : String
  dose : String
  frequency : String
  intended_effect : String
  duration : String
deriving DecidableEq, Repr

/-- The complete client form state of `PatientForm.jsx`: the `formData`
object (lines 21-30) together with the two in-progress entries
(`currentMedication`, `currentHerb`). -/
structure FormState where
  age : String
  gender : String
  is_frail : Bool
  cfs_score : String
  life_expectancy : String
  comorbidities : List String
  medications : List MedEntry
  herbs : List HerbEntry
  currentMedication : MedEntry
  currentHerb : HerbEntry
deriving DecidableEq, Repr

/-- The blank medication entry that `addMedication` resets
`currentMedication` to (`PatientForm.jsx` lines 139-146). -/
def emptyMedication : MedEntry :=
  { generic_name := "", brand_name := "", dose := "", frequency := ""
  , indication := "", duration := "long_term" }

/-- The blank herb entry that `addHerb` resets `currentHerb` to
(`PatientForm.jsx` lines 165-172). -/
def emptyHerb : HerbEntry :=
  { generic_name := "", brand_name := "", dose := "", frequency := ""
  , intended_effect := "", duration := "long_term" }

/-- `addMedication` from `PatientForm.jsx` lines 133-150: appends the
current medication entry to the list when both `generic_name` and `dose`
are truthy (non-empty strings), resetting the entry; otherwise it alerts
and leaves all state unchanged. -/
def addMedication (fs : FormState) : FormState :=
  if fs.currentMedication.generic_name != "" && fs.currentMedication.dose != "" then
    { fs with medications := fs.medications ++ [fs.currentMedication]
            , currentMedication := emptyMedication }
  else
    fs

/-- `removeMedication` from `PatientForm.jsx` lines 152-157: filters out
the entry at the given index (`filter((_, i) => i !== index)`, i.e. erase
at index). -/
def removeMedication (fs : FormState) (index : Nat) : FormState :=
  { fs with medications := fs.medications.eraseIdx index }

/-- `addHerb` from `PatientForm.jsx` lines 159-176: appends the current
herb entry when its `generic_name` is truthy (non-empty), resetting the
entry; otherwise it alerts and leaves all state unchanged. -/
def addHerb (fs : FormState) : FormState :=
  if fs.currentHerb.generic_name != "" then
    { fs with herbs := fs.herbs ++ [fs.currentHerb]
            , currentHerb := emptyHerb }
  else
    fs

/-- `removeHerb` from `PatientForm.jsx` lines 178-183. -/
def removeHerb (fs : FormState) (index : Nat) : FormState :=
  { fs with herbs := fs.herbs.eraseIdx index }

/-- Invariant of the form state: every added medication has a non-empty
generic name and a non-empty dose, and every added herb has a non-empty
generic name. -/
abbrev FormInv (fs : FormState) : Prop :=
  (∀ m ∈ fs.medications, m.generic_name ≠ "" ∧ m.dose ≠ "") ∧
  (∀ h ∈ fs.herbs, h.generic_name ≠ "")

/-- Outcome of the submit handler: either an alert (nothing sent) or an
analysis request carrying the submitted form data. -/
inductive SubmitAction where
  | alerted
  | submitted (fd : FormState)
deriving DecidableEq, Repr

/-- `handleSubmit` from `PatientForm.jsx` lines 185-194: alerts and sends
nothing when the age field is falsy (empty string) or the medication list
is empty; otherwise calls `onSubmit(formData)`. -/
def handleSubmit (fs : FormState) : SubmitAction :=
  if fs.age == "" || fs.medications.isEmpty then
    .alerted
  else
    .submitted fs

/-! ## Taper plan schema and the client's consumption of it
(`TaperModal.jsx`, `services/api.js`) -/

/-- One step of a taper plan, as consumed by `TaperModal.jsx`
(fields read at lines 144-176). -/
structure TaperStep where
  week : Nat
  dose : String
  percentage_of_original : Nat
  instructions : String
  monitoring : String
  withdrawal_symptoms_to_watch : List String
deriving DecidableEq, Repr

/-- A taper plan, as consumed by `TaperModal.jsx` (fields read at lines
110-298).  There is no provenance field in this schema. -/
structure TaperPlan where
  drug_class : String
  risk_profile : String
  taper_strategy : String
  total_duration_weeks : Nat
  steps : List TaperStep
  success_indicators : List String
  pause_criteria : List String
  reversal_criteria : List String
  monitoring_schedule : List (String × List String)
  patient_education : List String
deriving DecidableEq, Repr

/-- The provenance heuristic of `TaperModal.jsx` line 32:
`setIsAiGenerated(plan.steps.length > 4)`. -/
def isAiGenerated (plan : TaperPlan) : Bool :=
  plan.steps.length > 4

/-- The patient data held by the app after submission and handed to
`TaperModal` (the submitted `formData`; fields read in
`TaperModal.jsx` lines 15-26). -/
structure PatientData where
  age : String
  cfs_score : String
  comorbidities : List String
  medications : List MedEntry
  herbs : List HerbEntry
deriving DecidableEq, Repr

/-- The selected medication analysis handed to `TaperModal` (only its
`name` is read when building the request). -/
structure SelectedMedication where
  name : String
deriving DecidableEq, Repr

/-- The body of a `POST /get-taper-plan` request, exactly the six fields
built by `fetchTaperPlan` in `TaperModal.jsx` lines 19-26 and posted
verbatim by `getTaperPlan` in `services/api.js` lines 23-31. -/
structure TaperRequest where
  drug_name : String
  current_dose : String
  duration_on_medication : String
  patient_cfs_score : Option String
  patient_age : String
  comorbidities : List String
deriving DecidableEq, Repr

/-- The medication lookup in `fetchTaperPlan` (`TaperModal.jsx` lines
15-17): `patientData.medications.find(m => m.generic_name.toLowerCase()
=== medication.name.toLowerCase())`. -/
def findMedData (medication : SelectedMedication) (patientData : PatientData) :
    Option MedEntry :=
  patientData.medications.find? fun m =>
    lowerString m.generic_name == lowerString medication.name

/-- The request object built by `fetchTaperPlan` (`TaperModal.jsx` lines
19-26).  `medData?.dose || '1 tablet'` defaults on a missing entry or an
empty dose; `medData?.duration || 'long_term'` likewise;
`patientData.cfs_score || null` sends `null` for an empty CFS field. -/
def buildTaperRequest (medication : SelectedMedication) (patientData : PatientData) :
    TaperRequest :=
  let medData := findMedData medication patientData
  { drug_name := medication.name
  , current_dose :=
      match medData with
      | some m => if m.dose == "" then "1 tablet" else m.dose
      | none => "1 tablet"
  , duration_on_medication :=
      match medData with
      | some m => if m.duration == "" then "long_term" else m.duration
      | none => "long_term"
  , patient_cfs_score :=
      if patientData.cfs_score == "" then none else some patientData.cfs_score
  , patient_age := patientData.age
  , comorbidities := patientData.comorbidities }

/-! ## Backend engine, modelled from the specification
The backend (`backend/app/...` per `STOPP_START_V2_INTEGRATION.md`) is not
among the shipped sources; the following definitions are modelled from the
specification text. -/

/-- Severity of a STOP flag (spec §3 CriterionRecord: High | Moderate). -/
inductive Severity where
  | High
  | Moderate
deriving DecidableEq, Repr

/-- Risk category of a medication analysis (spec §3: RED | YELLOW | GREEN). -/
inductive RiskCategory where
  | RED
  | YELLOW
  | GREEN
deriving DecidableEq, Repr

/-- Modelled from the spec: patient profile (§3) restricted to the fields
the risk scorer and criteria matcher consult (age, frailty flag, optional
CFS score, comorbidity set). -/
structure PatientProfile where
  age : Nat
  is_frail : Bool
  cfs_score : Option Nat
  comorbidities : List String
deriving DecidableEq, Repr

/-- Modelled from the spec (§4.2): per-flag base contribution, High = +4,
Moderate = +2. -/
def flagContribution : Severity → Nat
  | .High => 4
  | .Moderate => 2

/-- Modelled from the spec (§4.2): context modifiers — frailty or CFS ≥ 6
adds a fixed bonus, age ≥ 85 a smaller bonus, each applied once per
medication. -/
def contextBonus (p : PatientProfile) : Nat :=
  (if p.is_frail || decide (6 ≤ p.cfs_score.getD 0) then 2 else 0) +
  (if 85 ≤ p.age then 1 else 0)

/-- Modelled from the spec (§4.2 `score`): sum of flag contributions plus
context modifiers, clamped to [0,10]. -/
def riskScore (flags : List Severity) (p : PatientProfile) : Nat :=
  min 10 ((flags.map flagContribution).sum + contextBonus p)

/-- Modelled from the spec (§4.2 category thresholds): RED if score ≥ 7,
YELLOW if 4–6, GREEN if < 4. -/
def riskCategory (s : Nat) : RiskCategory :=
  if 7 ≤ s then .RED else if 4 ≤ s then .YELLOW else .GREEN

/-- Modelled from the spec (§3 MedicationAnalysis): the fields the risk
scorer determines. -/
structure MedicationAnalysis where
  name : String
  risk_score : Nat
  risk_category : RiskCategory
  flags : List Severity
deriving DecidableEq, Repr

/-- Modelled from the spec (§4.2): assembles a medication's analysis from
its accumulated flags and the patient context; the category is computed
from the clamped score. -/
def analyzeMedication (name : String) (flags : List Severity)
    (p : PatientProfile) : MedicationAnalysis :=
  let s := riskScore flags p
  { name := name, risk_score := s, risk_category := riskCategory s
  , flags := flags }

/-- Modelled from the spec (§6 `/analyze-patient` body): the request
carries the patient fields and the medication/herb lists; `age` is
optional at the transport boundary (it may be missing). -/
structure AnalyzeRequest where
  age : Option Nat
  is_frail : Bool
  cfs_score : Option Nat
  comorbidities : List String
  medications : List MedEntry
  herbs : List HerbEntry
deriving DecidableEq, Repr

/-- Modelled from the spec (§7 error taxonomy): the validation failure
raised before engine invocation. -/
inductive AnalyzeError where
  | ValidationError
deriving DecidableEq, Repr

/-- Modelled from the spec (§6, §7a): the `/analyze-patient` endpoint
rejects a request with a validation error — before invoking the engine,
taken here as a parameter — exactly when `age` is missing or the
medication list is empty; otherwise it runs the engine. -/
def analyzePatientEndpoint {Result : Type}
    (engine : AnalyzeRequest → Result) (req : AnalyzeRequest) :
    Except AnalyzeError Result :=
  if req.age.isNone || req.medications.isEmpty then
    .error .ValidationError
  else
    .ok (engine req)

/-! ### Interaction checker, modelled from the spec (§4.3) -/

/-- A curated herb-drug interaction table entry: two normalized substance
names (the pair is treated as unordered on lookup) and the recorded
interaction data. -/
structure CuratedInteraction where
  nameA : String
  nameB : String
  severity : String
  evidence : String
  effect : String
deriving DecidableEq, Repr

/-- Resolved interaction content for a pair (severity, evidence, effect);
the orchestrator attaches the herb/drug role labels separately. -/
structure InteractionData where
  severity : String
  evidence : String
  effect : String
deriving DecidableEq, Repr

/-- Modelled from the spec (§4.3): drug-name normalization, taken as
lowercasing free-text names. -/
def normalizeName (s : String) : String :=
  lowerString s

/-- Modelled from the spec (§4.3): the curated interaction table, a small
read-only dataset of clinically documented pairs; curated records carry
the evidence level `"clinical"`. -/
def curatedTable : List CuratedInteraction :=
  [ { nameA := "ginkgo", nameB := "warfarin", severity := "Major"
    , evidence := "clinical", effect := "Increased bleeding risk" }
  , { nameA := "st johns wort", nameB := "sertraline", severity := "Major"
    , evidence := "clinical", effect := "Risk of serotonin syndrome" }
  , { nameA := "ginger", nameB := "aspirin", severity := "Moderate"
    , evidence := "clinical", effect := "Additive antiplatelet effect" } ]

/-- Modelled from the spec (§4.3): look up the curated table keyed by the
unordered pair of normalized names. -/
def lookupCurated (x y : String) : Option CuratedInteraction :=
  curatedTable.find? fun e =>
    (e.nameA == normalizeName x && e.nameB == normalizeName y) ||
    (e.nameA == normalizeName y && e.nameB == normalizeName x)

/-- Modelled from the spec (§4.3, §9): each substance's known
pharmacological profile, reduced to whether it is a high-interaction-risk
substance; the generative fallback synthesizes its estimate from the two
profiles. -/
def highRiskProfile (s : String) : Bool :=
  (normalizeName s == "warfarin") || (normalizeName s == "ginkgo") ||
  (normalizeName s == "st johns wort")

/-- Modelled from the spec (§4.3): the generative fallback for a pair not
in the curated table; it synthesizes severity and effect from the two
substances' profiles (a symmetric combination) and must carry
`evidence="simulated"`. -/
def simulatedInteraction (x y : String) : InteractionData :=
  if highRiskProfile x || highRiskProfile y then
    { severity := "Moderate", evidence := "simulated"
    , effect := "Potential pharmacodynamic interaction" }
  else
    { severity := "Minor", evidence := "simulated"
    , effect := "No major interaction expected" }

/-- Modelled from the spec (§4.3 `checkInteractions`, per pair): return
the curated record when the unordered pair is in the table, otherwise the
simulated fallback record. -/
def resolveInteraction (x y : String) : InteractionData :=
  match lookupCurated x y with
  | some e => { severity := e.severity, evidence := e.evidence, effect := e.effect }
  | none => simulatedInteraction x y

/-! ### START criteria matcher, modelled from the spec (§4.1) -/

/-- Modelled from the spec (§3 START CriterionRecord): drug class,
condition predicate (reduced to a required comorbidity), recommendation
text, evidence strength. -/
structure StartCriterion where
  drug_class : String
  required_comorbidity : String
  recommendation : String
  evidence : String
deriving DecidableEq, Repr

/-- Modelled from the spec (§9 alias table): normalization of a
medication name to its zero-or-more canonical drug classes; unrecognized
names resolve to the empty class set. -/
def classesOf (name : String) : List String :=
  ((aliasTable.find? fun e => e.1 == normalizeName name).map Prod.snd).getD []
where
  /-- The drug-name alias table (spec §2 CriteriaRepository). -/
  aliasTable : List (String × List String) :=
    [ ("amlodipine", ["Antihypertensive"])
    , ("lisinopril", ["Antihypertensive", "ACE inhibitor"])
    , ("alprazolam", ["Benzodiazepine"])
    , ("omeprazole", ["Proton-pump inhibitor"])
    , ("morphine", ["Opioid"]) ]

/-- Modelled from the spec (§4.1): the START criteria table. -/
def startCriteria : List StartCriterion :=
  [ { drug_class := "Antihypertensive", required_comorbidity := "Hypertension"
    , recommendation := "START antihypertensive", evidence := "Strong" }
  , { drug_class := "ACE inhibitor", required_comorbidity := "Heart failure"
    , recommendation := "START ACE inhibitor", evidence := "Strong" } ]

/-- Modelled from the spec (§4.1): a START criterion's condition predicate
against the patient profile (required comorbidity membership). -/
def startCondHolds (c : StartCriterion) (p : PatientProfile) : Bool :=
  p.comorbidities.contains c.required_comorbidity

/-- Modelled from the spec (§4.1 START matching): emit a criterion exactly
when its condition predicate holds for the patient and no listed
medication already belongs to the criterion's drug class; evaluated once
over the full medication list. -/
def matchStart (medications : List MedEntry) (p : PatientProfile) :
    List StartCriterion :=
  startCriteria.filter fun c =>
    startCondHolds c p &&
    !(medications.any fun m => (classesOf m.generic_name).contains c.drug_class)

/-! ### Taper plan generator, modelled from the spec (§4.4) -/

/-- Modelled from the spec (§4.4): the drug classes with defined taper
policies. -/
inductive DrugClass where
  | benzodiazepine
  | opioid
  | protonPumpInhibitor
  | anticholinergic
deriving DecidableEq, Repr

/-- Modelled from the spec (§4.4): the drug-class-specific maintenance
floor of `percentage_of_original` — 0 for full discontinuation, or a low
maintenance percentage for drugs that should not be fully stopped. -/
def maintenanceFloor : DrugClass → Nat
  | .benzodiazepine => 0
  | .opioid => 0
  | .protonPumpInhibitor => 25
  | .anticholinergic => 0

/-- Modelled from the spec (§4.4): the class-specific baseline percentage
reduction per weekly step (benzodiazepines 10–25% per step; proton-pump
inhibitors faster). -/
def baseStepSize : DrugClass → Nat
  | .benzodiazepine => 25
  | .opioid => 10
  | .protonPumpInhibitor => 50
  | .anticholinergic => 25

/-- Modelled from the spec (§4.4 patient context): the context fields the
generator consults (frailty, CFS, age). -/
structure TaperContext where
  patient_age : Nat
  patient_cfs_score : Option Nat
  is_frail : Bool
  comorbidities : List String
deriving DecidableEq, Repr

/-- Modelled from the spec (§4.4): frailty/CFS/age lengthen the cadence —
a frail context halves the per-step reduction (never below 1%), yielding
smaller steps over more weeks. -/
def stepSizeFor (c : DrugClass) (ctx : TaperContext) : Nat :=
  if ctx.is_frail || decide (6 ≤ ctx.patient_cfs_score.getD 0) ||
      decide (85 ≤ ctx.patient_age) then
    max 1 (baseStepSize c / 2)
  else
    baseStepSize c

/-- Modelled from the spec (§4.4 state machine): the weekly
`percentage_of_original` sequence, descending from the current percentage
by the step size (never dipping below the floor) until the floor is
reached. -/
def descendPercents (stepSize floor cur : Nat) : List Nat :=
  if hfc : floor < cur then
    have : max floor (cur - max 1 stepSize) < cur := by omega
    max floor (cur - max 1 stepSize) ::
      descendPercents stepSize floor (max floor (cur - max 1 stepSize))
  else
    []
termination_by cur
decreasing_by
  omega

/-- Modelled from the spec (§3 TaperPlan steps): one step per weekly
percentage, weeks numbered from 1, each carrying instructions, a
monitoring note and class-typical withdrawal symptoms. -/
def mkSteps (percents : List Nat) : List TaperStep :=
  percents.enum.map fun ip =>
    { week := ip.1 + 1
    , dose := toString ip.2 ++ "% of original dose"
    , percentage_of_original := ip.2
    , instructions := "Reduce to " ++ toString ip.2 ++ "% of the original dose"
    , monitoring := "Review withdrawal symptoms and vital signs"
    , withdrawal_symptoms_to_watch := ["rebound symptoms", "anxiety", "insomnia"] }

/-- Modelled from the spec (§4.4 `generate`): the deterministic fallback
taper plan for a drug class and patient context — steps descending from
100% to the class's maintenance floor, with the plan-level safety
metadata; `total_duration_weeks` is the number of weekly steps. -/
def generateTaperPlan (c : DrugClass) (ctx : TaperContext)
    (currentDose durationOnMedication : String) : TaperPlan :=
  let percents := descendPercents (stepSizeFor c ctx) (maintenanceFloor c) 100
  { drug_class := toString (repr c)
  , risk_profile := if ctx.is_frail then "high" else "standard"
  , taper_strategy := "Stepwise reduction from " ++ currentDose ++
      " after " ++ durationOnMedication ++ " of use"
  , total_duration_weeks := percents.length
  , steps := mkSteps percents
  , success_indicators := ["No withdrawal symptoms", "Stable sleep"]
  , pause_criteria := ["Moderate withdrawal symptoms"]
  , reversal_criteria := ["Severe withdrawal symptoms"]
  , monitoring_schedule := [("Week 1-2", ["Daily symptom check"])]
  , patient_education := ["Do not stop abruptly"] }

/-! ## Concrete sample data used by witnesses and counterexamples -/

/-- A taper step carrying only the fields that matter for provenance
inspection. -/
def sampleStep (w p : Nat) : TaperStep :=
  { week := w, dose := toString p ++ "%", percentage_of_original := p
  , instructions := "", monitoring := "", withdrawal_symptoms_to_watch := [] }

/-- A taper plan skeleton with the given step list and fixed values for
every other field. -/
def samplePlan (steps : List TaperStep) : TaperPlan :=
  { drug_class := "Benzodiazepine", risk_profile := "high"
  , taper_strategy := "Stepwise reduction", total_duration_weeks := steps.length
  , steps := steps, success_indicators := [], pause_criteria := []
  , reversal_criteria := [], monitoring_schedule := [], patient_education := [] }

/-- A rule-based-looking plan with four steps. -/
def planFourSteps : TaperPlan :=
  samplePlan [sampleStep 1 75, sampleStep 2 50, sampleStep 3 25, sampleStep 4 0]

/-- A plan with five steps, otherwise identical to `planFourSteps` apart
from `total_duration_weeks` tracking the step count. -/
def planFiveSteps : TaperPlan :=
  samplePlan [sampleStep 1 80, sampleStep 2 60, sampleStep 3 40, sampleStep 4 20,
    sampleStep 5 0]

/-- A concrete medication entry (Alprazolam 0.5mg, long-term). -/
def sampleAlprazolam : MedEntry :=
  { generic_name := "Alprazolam", brand_name := "Xanax", dose := "0.5mg"
  , frequency := "twice daily", indication := "Anxiety", duration := "long_term" }

/-- A concrete medication entry with no drug-class alias (Paracetamol). -/
def sampleParacetamol : MedEntry :=
  { generic_name := "Paracetamol", brand_name := "", dose := "500mg"
  , frequency := "as needed", indication := "Pain", duration := "short_term" }

/-- A concrete herb entry (Ginger). -/
def sampleGingerHerb : HerbEntry :=
  { generic_name := "Ginger", brand_name := "", dose := "1 tsp"
  , frequency := "daily", intended_effect := "Digestion", duration := "long_term" }

/-- A concrete submitted patient whose medication list holds only
Alprazolam. -/
def samplePatientData : PatientData :=
  { age := "82", cfs_score := "6", comorbidities := ["History of falls"]
  , medications := [sampleAlprazolam], herbs := [sampleGingerHerb] }

/-- The selected analysis of the herb Ginger, whose name matches no entry
of the medications list. -/
def sampleGingerSelection : SelectedMedication :=
  { name := "Ginger" }

/-- A concrete form state satisfying the form invariant. -/
def sampleFormState : FormState :=
  { age := "82", gender := "female", is_frail := true, cfs_score := "6"
  , life_expectancy := "2-5_years", comorbidities := ["History of falls"]
  , medications := [sampleAlprazolam], herbs := [sampleGingerHerb]
  , currentMedication := { emptyMedication with generic_name := "Omeprazole" }
  , currentHerb := emptyHerb }

/-- `planFourSteps` with its steps replaced by the five-step list: a plan
identical to `planFourSteps` in every field except `steps`. -/
def planFourWithFiveSteps : TaperPlan :=
  { planFourSteps with steps := planFiveSteps.steps }

/-- The antihypertensive START criterion of the modelled table. -/
def sampleStartCriterion : StartCriterion :=
  { drug_class := "Antihypertensive", required_comorbidity := "Hypertension"
  , recommendation := "START antihypertensive", evidence := "Strong" }

/-- A concrete patient profile with hypertension and no frailty markers. -/
def samplePatientHTN : PatientProfile :=
  { age := 70, is_frail := false, cfs_score := none
  , comorbidities := ["Hypertension"] }

/-! ## Helper lemmas -/

theorem find_eq_of_pred_eq {α : Type} {p q : α → Bool} (l : List α)
    (h : ∀ a, p a = q a) : l.find? p = l.find? q := by
  induction l with
  | nil => rfl
  | cons a t ih => simp only [List.find?, h a]; cases q a <;> simp [ih]

theorem descendPercents_ne_nil {s floor cur : Nat} (h : floor < cur) :
    descendPercents s floor cur ≠ [] := by
  rw [descendPercents]
  simp [h]

theorem mem_descendPercents_lt {s floor : Nat} :
    ∀ {cur x : Nat}, x ∈ descendPercents s floor cur → x < cur := by
  intro cur
  induction cur using Nat.strong_induction_on with
  | _ cur ih =>
    intro x hx
    rw [descendPercents] at hx
    by_cases h : floor < cur
    · simp only [dif_pos h] at hx
      rcases List.mem_cons.mp hx with rfl | hx
      · omega
      · exact (ih _ (by omega) hx).trans_le (by omega)
    · simp [dif_neg h] at hx

theorem descendPercents_pairwise {s floor : Nat} :
    ∀ cur : Nat, List.Pairwise (fun a b => b < a) (descendPercents s floor cur) := by
  intro cur
  induction cur using Nat.strong_induction_on with
  | _ cur ih =>
    rw [descendPercents]
    by_cases h : floor < cur
    · simp only [dif_pos h]
      refine List.pairwise_cons.mpr ⟨?_, ih _ (by omega)⟩
      intro y hy
      exact mem_descendPercents_lt hy
    · simp [dif_neg h]

theorem descendPercents_getLast {s floor : Nat} :
    ∀ {cur : Nat}, floor < cur →
      (descendPercents s floor cur).getLast? = some floor := by
  intro cur
  induction cur using Nat.strong_induction_on with
  | _ cur ih =>
    intro h
    rw [descendPercents]
    simp only [dif_pos h]
    by_cases hnext : floor < max floor (cur - max 1 s)
    · rw [List.getLast?_cons, ih _ (by omega) hnext]
      simp
    · have hfl : max floor (cur - max 1 s) = floor := by omega
      rw [hfl, descendPercents]
      simp

theorem mkSteps_map_percentage (ps : List Nat) :
    (mkSteps ps).map (fun st => st.percentage_of_original) = ps := by
  unfold mkSteps
  rw [List.map_map]
  have h : ((fun st : TaperStep => st.percentage_of_original) ∘
      (fun ip : Nat × Nat =>
        ({ week := ip.1 + 1
         , dose := toString ip.2 ++ "% of original dose"
         , percentage_of_original := ip.2
         , instructions := "Reduce to " ++ toString ip.2 ++ "% of the original dose"
         , monitoring := "Review withdrawal symptoms and vital signs"
         , withdrawal_symptoms_to_watch := ["rebound symptoms", "anxiety", "insomnia"] } : TaperStep)))
      = Prod.snd := rfl
  rw [h, List.enum_map_snd]

theorem mkSteps_ne_nil {ps : List Nat} (h : ps ≠ []) : mkSteps ps ≠ [] := by
  cases ps with
  | nil => exact absurd rfl h
  | cons a t => simp [mkSteps]

theorem maintenanceFloor_lt (c : DrugClass) : maintenanceFloor c < 100 := by
  cases c <;> decide

theorem riskCategory_thresholds (s : Nat) :
    (riskCategory s = .RED ↔ 7 ≤ s) ∧
    (riskCategory s = .YELLOW ↔ 4 ≤ s ∧ s ≤ 6) ∧
    (riskCategory s = .GREEN ↔ s < 4) := by
  unfold riskCategory
  split_ifs <;> simp_all <;> omega

theorem lookupCurated_comm (x y : String) :
    lookupCurated x y = lookupCurated y x := by
  unfold lookupCurated
  exact find_eq_of_pred_eq _ (fun e => Bool.or_comm _ _)

theorem simulatedInteraction_comm (x y : String) :
    simulatedInteraction x y = simulatedInteraction y x := by
  unfold simulatedInteraction
  rw [Bool.or_comm]

theorem curated_evidence_clinical :
    ∀ e ∈ curatedTable, e.evidence = "clinical" := by
  decide

/-! ## Claim theorems -/

/-- C1 counterexample: the client does infer provenance from the step
count.  Two plans identical in every field other than `steps` — the
second is the first with a five-step list substituted — are classified
differently by `isAiGenerated` (`TaperModal.jsx` line 32), the four-step
one as rule-based and the five-step one as AI-personalized; the
`TaperPlan` schema the client reads carries no provenance field at all. -/
theorem taperProvenance_depends_on_steps :
    isAiGenerated planFourSteps = false ∧
    isAiGenerated planFourWithFiveSteps = true ∧
    planFourSteps.steps.length = 4 ∧
    planFourWithFiveSteps.steps.length = 5 ∧
    planFourWithFiveSteps.drug_class = planFourSteps.drug_class ∧
    planFourWithFiveSteps.risk_profile = planFourSteps.risk_profile ∧
    planFourWithFiveSteps.taper_strategy = planFourSteps.taper_strategy ∧
    planFourWithFiveSteps.total_duration_weeks = planFourSteps.total_duration_weeks ∧
    planFourWithFiveSteps.success_indicators = planFourSteps.success_indicators ∧
    planFourWithFiveSteps.pause_criteria = planFourSteps.pause_criteria ∧
    planFourWithFiveSteps.reversal_criteria = planFourSteps.reversal_criteria ∧
    planFourWithFiveSteps.monitoring_schedule = planFourSteps.monitoring_schedule ∧
    planFourWithFiveSteps.patient_education = planFourSteps.patient_education :=
  ⟨rfl, rfl, rfl, rfl, rfl, rfl, rfl, rfl, rfl, rfl, rfl, rfl, rfl⟩

/-- C1 (amended): for every taper plan received by the client, the
displayed provenance is `isAiGenerated`, which holds exactly when the
plan has more than four steps, and which depends on the plan only through
its step count — it is inferred from `steps.length > 4`
(`TaperModal.jsx` line 32), not read from any provenance field. -/
theorem taperProvenance_eq_step_count (plan p q : TaperPlan) :
    (isAiGenerated plan = true ↔ 4 < plan.steps.length) ∧
    (p.steps.length = q.steps.length → isAiGenerated p = isAiGenerated q) := by
  constructor
  · simp [isAiGenerated]
  · intro h
    unfold isAiGenerated
    rw [h]

/-- C2: for every medication analysis produced, `risk_score` lies in
[0,10] (it is a `Nat`, so 0 ≤ score holds by type), `risk_category` is
computed from `risk_score` alone, and the category is RED iff score ≥ 7,
YELLOW iff 4 ≤ score ≤ 6, GREEN iff score < 4. -/
theorem riskScore_bounds_and_category (name : String) (flags : List Severity)
    (p : PatientProfile) :
    (analyzeMedication name flags p).risk_score ≤ 10 ∧
    (analyzeMedication name flags p).risk_category =
      riskCategory (analyzeMedication name flags p).risk_score ∧
    ((analyzeMedication name flags p).risk_category = .RED ↔
      7 ≤ (analyzeMedication name flags p).risk_score) ∧
    ((analyzeMedication name flags p).risk_category = .YELLOW ↔
      4 ≤ (analyzeMedication name flags p).risk_score ∧
        (analyzeMedication name flags p).risk_score ≤ 6) ∧
    ((analyzeMedication name flags p).risk_category = .GREEN ↔
      (analyzeMedication name flags p).risk_score < 4) :=
  ⟨Nat.min_le_left _ _, rfl,
    (riskCategory_thresholds _).1,
    (riskCategory_thresholds _).2.1,
    (riskCategory_thresholds _).2.2⟩

/-- C3: every generated taper plan has a non-empty step sequence, its
`percentage_of_original` is non-increasing across consecutive steps in
week order, and the final step's percentage is ≤ 10% or equals the drug
class's defined maintenance floor (here it always equals the floor). -/
theorem generateTaperPlan_steps_invariants (c : DrugClass) (ctx : TaperContext)
    (dose dur : String) :
    (generateTaperPlan c ctx dose dur).steps ≠ [] ∧
    List.Chain' (fun a b => b.percentage_of_original ≤ a.percentage_of_original)
      (generateTaperPlan c ctx dose dur).steps ∧
    ∃ lastStep, (generateTaperPlan c ctx dose dur).steps.getLast? = some lastStep ∧
      (lastStep.percentage_of_original ≤ 10 ∨
       lastStep.percentage_of_original = maintenanceFloor c) := by
  have hfl : maintenanceFloor c < 100 := maintenanceFloor_lt c
  have hsteps : (generateTaperPlan c ctx dose dur).steps =
      mkSteps (descendPercents (stepSizeFor c ctx) (maintenanceFloor c) 100) := rfl
  set ps := descendPercents (stepSizeFor c ctx) (maintenanceFloor c) 100 with hps
  have hmap : (mkSteps ps).map (fun st => st.percentage_of_original) = ps :=
    mkSteps_map_percentage ps
  refine ⟨?_, ?_, ?_⟩
  · rw [hsteps]
    exact mkSteps_ne_nil (descendPercents_ne_nil hfl)
  · rw [hsteps]
    have hchain : List.Chain' (fun a b : Nat => b ≤ a) ps :=
      ((descendPercents_pairwise 100).imp (fun h => Nat.le_of_lt h)).chain'
    rw [← hmap] at hchain
    exact (List.chain'_map _).mp hchain
  · rw [hsteps]
    have hlast : ((mkSteps ps).map (fun st => st.percentage_of_original)).getLast?
        = some (maintenanceFloor c) := by
      rw [hmap]
      exact descendPercents_getLast hfl
    rw [List.getLast?_map] at hlast
    rcases Option.map_eq_some'.mp hlast with ⟨lastStep, hl, hperc⟩
    exact ⟨lastStep, hl, Or.inr hperc⟩

/-- C4: the analysis endpoint rejects a request with a validation error —
independently of the engine, which is never invoked on the rejected path —
exactly when `age` is missing or the medication list is empty; and the
client form's `handleSubmit` issues the analysis request (with the form
data unchanged) if and only if the age field is non-empty and at least
one medication has been added, alerting and sending nothing otherwise. -/
theorem validation_and_submit_iff {R : Type} (engine : AnalyzeRequest → R)
    (req : AnalyzeRequest) (fs : FormState) :
    ((req.age = none ∨ req.medications = []) ↔
      analyzePatientEndpoint engine req = .error .ValidationError) ∧
    (handleSubmit fs = .submitted fs ↔ (fs.age ≠ "" ∧ fs.medications ≠ [])) ∧
    ((fs.age = "" ∨ fs.medications = []) → handleSubmit fs = .alerted) ∧
    (∀ fd, handleSubmit fs = .submitted fd → fd = fs) := by
  refine ⟨?_, ?_, ?_, ?_⟩
  · unfold analyzePatientEndpoint
    by_cases h : req.age.isNone || req.medications.isEmpty
    · simp only [h, if_true]
      simp only [Bool.or_eq_true, Option.isNone_iff_eq_none, List.isEmpty_iff] at h
      simp [h]
    · simp only [h, if_false]
      simp only [Bool.or_eq_true, Option.isNone_iff_eq_none, List.isEmpty_iff] at h
      push_neg at h
      simp [h.1, h.2]
  · unfold handleSubmit
    by_cases h : fs.age == "" || fs.medications.isEmpty
    · simp only [h, if_true]
      simp only [Bool.or_eq_true, beq_iff_eq, List.isEmpty_iff] at h
      constructor
      · intro hcontra; cases hcontra
      · rintro ⟨h1, h2⟩; rcases h with h | h <;> simp_all
    · simp only [h, if_false]
      simp only [Bool.or_eq_true, beq_iff_eq, List.isEmpty_iff] at h
      push_neg at h
      simp [h.1, h.2]
  · intro h
    unfold handleSubmit
    have hcond : (fs.age == "" || fs.medications.isEmpty) = true := by
      rcases h with h | h <;> simp [h]
    simp [hcond]
  · intro fd hfd
    unfold handleSubmit at hfd
    by_cases h : fs.age == "" || fs.medications.isEmpty
    · simp [h] at hfd
    · simp only [h, if_false] at hfd
      cases hfd
      rfl

/-- C5: interaction resolution is symmetric in argument order — the
record resolved for a pair of substance names is the same whichever of
the two names is presented first, both on the curated-table path (the
table is keyed by the unordered normalized pair) and on the simulated
fallback path. -/
theorem resolveInteraction_symm (x y : String) :
    resolveInteraction x y = resolveInteraction y x := by
  unfold resolveInteraction
  rw [lookupCurated_comm]
  cases lookupCurated y x with
  | none => exact simulatedInteraction_comm x y
  | some e => rfl

/-- C6: the resolved record's `evidence` field equals `"simulated"` if
and only if the normalized pair was not found in the curated interaction
table; curated hits carry the table's recorded evidence level
(`"clinical"`) and are never marked simulated. -/
theorem resolveInteraction_evidence_simulated_iff (x y : String) :
    ((resolveInteraction x y).evidence = "simulated" ↔
      lookupCurated x y = none) := by
  unfold resolveInteraction
  cases h : lookupCurated x y with
  | none =>
    have hsim : (simulatedInteraction x y).evidence = "simulated" := by
      unfold simulatedInteraction
      split <;> rfl
    simp [hsim]
  | some e =>
    have hmem : e ∈ curatedTable := List.mem_of_find?_eq_some h
    have hev : e.evidence = "clinical" := curated_evidence_clinical e hmem
    simp [hev]

/-- C7: a START criterion is emitted by `matchStart` over the patient's
full medication list exactly when its condition predicate holds for the
patient and no listed medication belongs to the criterion's drug class —
in particular an emitted recommendation never names a drug class already
present among the listed medications. -/
theorem matchStart_no_redundant_class (medications : List MedEntry)
    (p : PatientProfile) (c : StartCriterion) (hc : c ∈ startCriteria) :
    (c ∈ matchStart medications p ↔
      (startCondHolds c p = true ∧
       ∀ m ∈ medications, c.drug_class ∉ classesOf m.generic_name)) := by
  unfold matchStart
  rw [List.mem_filter]
  simp [hc, List.any_eq_false]

/-- Witness for C7: the antihypertensive criterion at a concrete
hypertensive patient whose only listed medication (Paracetamol) resolves
to no drug class. -/
theorem matchStart_no_redundant_class_witness :
    sampleStartCriterion ∈ startCriteria ∧
    (sampleStartCriterion ∈ matchStart [sampleParacetamol] samplePatientHTN ↔
      (startCondHolds sampleStartCriterion samplePatientHTN = true ∧
       ∀ m ∈ [sampleParacetamol],
         sampleStartCriterion.drug_class ∉ classesOf m.generic_name)) :=
  ⟨by decide,
    matchStart_no_redundant_class [sampleParacetamol] samplePatientHTN
      sampleStartCriterion (by decide)⟩

/-- C8: every taper-plan request the client builds consists of exactly
the six fields of the `TaperRequest` schema (the fourth conjunct is the
schema's eta law: any request is nothing but those six fields), with
`drug_name` the selected analysis's name, `patient_age` the submitted
patient's age and `comorbidities` the submitted comorbidity list. -/
theorem buildTaperRequest_fields (medication : SelectedMedication)
    (patientData : PatientData) (r : TaperRequest) :
    (buildTaperRequest medication patientData).drug_name = medication.name ∧
    (buildTaperRequest medication patientData).patient_age = patientData.age ∧
    (buildTaperRequest medication patientData).comorbidities =
      patientData.comorbidities ∧
    r = ⟨r.drug_name, r.current_dose, r.duration_on_medication,
         r.patient_cfs_score, r.patient_age, r.comorbidities⟩ :=
  ⟨rfl, rfl, rfl, rfl⟩

/-- C9: when the selected analysis's name matches no submitted
medication's `generic_name` under case-insensitive comparison (the lookup
searches only the medications list), the request is still built — with
`current_dose` silently defaulted to `"1 tablet"` and
`duration_on_medication` to `"long_term"`. -/
theorem buildTaperRequest_silent_defaults (medication : SelectedMedication)
    (patientData : PatientData)
    (h : findMedData medication patientData = none) :
    (buildTaperRequest medication patientData).current_dose = "1 tablet" ∧
    (buildTaperRequest medication patientData).duration_on_medication =
      "long_term" := by
  constructor <;> simp [buildTaperRequest, h]

/-- Witness for C9: the herb analysis Ginger against a patient whose only
medication is Alprazolam. -/
theorem buildTaperRequest_silent_defaults_witness :
    findMedData sampleGingerSelection samplePatientData = none ∧
    ((buildTaperRequest sampleGingerSelection samplePatientData).current_dose =
        "1 tablet" ∧
     (buildTaperRequest sampleGingerSelection samplePatientData).duration_on_medication =
        "long_term") :=
  ⟨by decide,
    buildTaperRequest_silent_defaults sampleGingerSelection samplePatientData
      (by decide)⟩

/-- C10: the form-state invariant — every added medication has a
non-empty generic name and dose, every added herb a non-empty generic
name — is preserved by `addMedication` and `addHerb` (which refuse an
incomplete current entry, leaving the state unchanged) and by
`removeMedication` and `removeHerb`. -/
theorem formState_invariant_preserved (fs : FormState) (i : Nat)
    (hinv : FormInv fs) :
    FormInv (addMedication fs) ∧ FormInv (addHerb fs) ∧
    FormInv (removeMedication fs i) ∧ FormInv (removeHerb fs i) ∧
    ((fs.currentMedication.generic_name = "" ∨ fs.currentMedication.dose = "") →
      addMedication fs = fs) ∧
    (fs.currentHerb.generic_name = "" → addHerb fs = fs) := by
  obtain ⟨hm, hh⟩ := hinv
  refine ⟨?_, ?_, ?_, ?_, ?_, ?_⟩
  · unfold addMedication
    by_cases hc : (fs.currentMedication.generic_name != "" &&
        fs.currentMedication.dose != "") = true
    · simp only [hc, if_true]
      simp only [Bool.and_eq_true, bne_iff_ne] at hc
      refine ⟨?_, hh⟩
      intro m hmem
      rcases List.mem_append.mp hmem with hmem | hmem
      · exact hm m hmem
      · rcases List.mem_singleton.mp hmem with rfl
        exact hc
    · simp only [Bool.not_eq_true] at hc
      simp only [hc, if_false]
      exact ⟨hm, hh⟩
  · unfold addHerb
    by_cases hc : (fs.currentHerb.generic_name != "") = true
    · simp only [hc, if_true]
      simp only [bne_iff_ne] at hc
      refine ⟨hm, ?_⟩
      intro hb hmem
      rcases List.mem_append.mp hmem with hmem | hmem
      · exact hh hb hmem
      · rcases List.mem_singleton.mp hmem with rfl
        exact hc
    · simp only [Bool.not_eq_true] at hc
      simp only [hc, if_false]
      exact ⟨hm, hh⟩
  · refine ⟨?_, hh⟩
    intro m hmem
    exact hm m ((List.eraseIdx_sublist fs.medications i).subset hmem)
  · refine ⟨hm, ?_⟩
    intro hb hmem
    exact hh hb ((List.eraseIdx_sublist fs.herbs i).subset hmem)
  · intro hzero
    unfold addMedication
    have hcond : (fs.currentMedication.generic_name != "" &&
        fs.currentMedication.dose != "") = false := by
      rcases hzero with h | h <;> simp [h]
    simp [hcond]
  · intro hzero
    unfold addHerb
    simp [hzero]

/-- Witness for C10: the invariant holds at a concrete populated form
state and is preserved by all four operations there. -/
theorem formState_invariant_preserved_witness :
    FormInv sampleFormState ∧
    (FormInv (addMedication sampleFormState) ∧
     FormInv (addHerb sampleFormState) ∧
     FormInv (removeMedication sampleFormState 0) ∧
     FormInv (removeHerb sampleFormState 0) ∧
     ((sampleFormState.currentMedication.generic_name = "" ∨
       sampleFormState.currentMedication.dose = "") →
       addMedication sampleFormState = sampleFormState) ∧
     (sampleFormState.currentHerb.generic_name = "" →
       addHerb sampleFormState = sampleFormState)) :=
  ⟨by decide, formState_invariant_preserved sampleFormState 0 (by decide)⟩

end Deprescribing
